import Mathlib

/-!
Verification of the media state-synchronization core of `media-playable`.

The development shallowly embeds the repository's TypeScript sources:
  * `MediaMachine.ts` — the `@xstate/fsm` machine holding the media snapshot
    (one state `"ready"`, a single targetless `UPDATE` transition whose only
    action is the `updateMedia` assign that spreads the partial update over
    the current context);
  * `MediaProvider` (the media element binder) — buffered-range readiness
    check, debounced LOADING / immediate CAN_PLAY status switching, the hls
    error policy, the duration / volume / rotate / paused / bitrate setters;
  * `MediaContext` — the selector-based subscription layer.

Numbers that the code manipulates (seconds, volumes, degrees) are embedded
as rationals; `Math.floor` / `Math.round` become `Int.floor`-based
functions, and the JavaScript `%` operator (remainder with the sign of the
dividend) is `jsRem` below.  Partial snapshots are records of `Option`s,
and the JS object spread `{...context, ...updateValues}` is `applyUpdate`.
-/

namespace MediaPlayable

/-- constants.ts: `DEFAULT_AUTO_BITRATE_INDEX = -1`. -/
def DEFAULT_AUTO_BITRATE_INDEX : Int := -1

/-- constants.ts: the `MediaStatus` enum. -/
inductive MediaStatus where
  | LOADING
  | CAN_PLAY
  | RECOVERING
  | ERROR
deriving DecidableEq, Repr

/-- types.ts: `BitrateInfo`. -/
structure BitrateInfo where
  bitrate : Nat
  width : Nat
  height : Nat
deriving DecidableEq, Repr

/-- MediaMachine.ts: `MediaValuesContext`, the media snapshot.  `buffered`
is the element's `TimeRanges | null`, embedded as an optional list of
`(start, end)` pairs of rational seconds. -/
structure MediaValuesContext where
  currentTime : ℚ
  seeking : Bool
  duration : ℚ
  volume : ℚ
  playbackRate : ℚ
  paused : Bool
  muted : Bool
  ended : Bool
  status : MediaStatus
  rotate : ℚ
  error : String
  buffered : Option (List (ℚ × ℚ))
  autoBitrateEnabled : Bool
  bitrateInfos : List BitrateInfo
  currentBirateIndex : Int
deriving DecidableEq, Repr

/-- A `Partial<MediaValuesContext>`: each field either absent (`none`) or
supplying a new value. -/
structure MediaUpdate where
  currentTime : Option ℚ := none
  seeking : Option Bool := none
  duration : Option ℚ := none
  volume : Option ℚ := none
  playbackRate : Option ℚ := none
  paused : Option Bool := none
  muted : Option Bool := none
  ended : Option Bool := none
  status : Option MediaStatus := none
  rotate : Option ℚ := none
  error : Option String := none
  buffered : Option (Option (List (ℚ × ℚ))) := none
  autoBitrateEnabled : Option Bool := none
  bitrateInfos : Option (List BitrateInfo) := none
  currentBirateIndex : Option Int := none
deriving DecidableEq, Repr

/-- The JS object spread `{...context, ...updateValues}` performed by the
`updateMedia` assign action: every field present in the update overwrites
the context's field, absent fields are kept. -/
def applyUpdate (c : MediaValuesContext) (u : MediaUpdate) : MediaValuesContext where
  currentTime := u.currentTime.getD c.currentTime
  seeking := u.seeking.getD c.seeking
  duration := u.duration.getD c.duration
  volume := u.volume.getD c.volume
  playbackRate := u.playbackRate.getD c.playbackRate
  paused := u.paused.getD c.paused
  muted := u.muted.getD c.muted
  ended := u.ended.getD c.ended
  status := u.status.getD c.status
  rotate := u.rotate.getD c.rotate
  error := u.error.getD c.error
  buffered := u.buffered.getD c.buffered
  autoBitrateEnabled := u.autoBitrateEnabled.getD c.autoBitrateEnabled
  bitrateInfos := u.bitrateInfos.getD c.bitrateInfos
  currentBirateIndex := u.currentBirateIndex.getD c.currentBirateIndex

/-- MediaMachine.ts: the machine's initial context. -/
def mediaMachineContext : MediaValuesContext where
  currentTime := 0
  duration := 0
  ended := false
  error := ""
  muted := false
  paused := true
  playbackRate := 1
  rotate := 0
  seeking := false
  status := .LOADING
  volume := 1
  buffered := none
  autoBitrateEnabled := true
  bitrateInfos := []
  currentBirateIndex := DEFAULT_AUTO_BITRATE_INDEX

/-- A state of the interpreted machine, as `@xstate/fsm` represents it:
the current state value, the context, and the `changed` flag (`none`
before any event, mirroring the library's `undefined` on the initial
state). -/
structure MachineState where
  value : String
  context : MediaValuesContext
  changed : Option Bool
deriving DecidableEq, Repr

/-- `interpret(mediaMachine).start()`: the service's initial state. -/
def initialMachineState : MachineState where
  value := "ready"
  context := mediaMachineContext
  changed := none

/-- The machine's transition on an `UPDATE` event, following
`@xstate/fsm`'s `transition`: in state `"ready"` the targetless `UPDATE`
transition runs the `updateMedia` assign action, so the next context is the
spread of the update over the current context and `changed` is computed as
`nextStateValue !== value || allActions.length > 0 || assigned`; the target
is unchanged and the action list (after filtering the assign) is empty, but
`assigned` is true, so `changed` is true on every `UPDATE`.  In any other
state the library returns the unchanged state with `changed := false`. -/
def mediaTransition (s : MachineState) (u : MediaUpdate) : MachineState :=
  if s.value = "ready" then
    { value := "ready", context := applyUpdate s.context u, changed := some true }
  else
    { s with changed := some false }

/-- `getSnapshot()`: the service exposes `state.context` as the current
snapshot. -/
def getSnapshot (s : MachineState) : MediaValuesContext :=
  s.context

/-- Sending a sequence of `UPDATE` events to the service, left to right. -/
def runUpdates (s : MachineState) (us : List MediaUpdate) : MachineState :=
  us.foldl mediaTransition s

/-- The specification's description of the store: the left-to-right shallow
merge of all the partial updates over the given defaults. -/
def shallowMergeAll (defaults : MediaValuesContext) (us : List MediaUpdate) :
    MediaValuesContext :=
  us.foldl applyUpdate defaults

theorem runUpdates_context_eq (us : List MediaUpdate) :
    ∀ s : MachineState, s.value = "ready" →
      (runUpdates s us).context = shallowMergeAll s.context us ∧
        (runUpdates s us).value = "ready" := by
  induction us with
  | nil => intro s hs; exact ⟨rfl, hs⟩
  | cons u us ih =>
      intro s hs
      have hstep : mediaTransition s u =
          { value := "ready", context := applyUpdate s.context u, changed := some true } := by
        simp [mediaTransition, hs]
      have := ih (mediaTransition s u) (by rw [hstep])
      constructor
      · simpa [runUpdates, shallowMergeAll, hstep] using this.1
      · simpa [runUpdates, hstep] using this.2

/-- C1.  For every sequence of `update` calls applied to the store after
session start, the snapshot returned afterwards equals the left-to-right
shallow merge of all the partial updates over the initial default snapshot
(the machine never mutates a snapshot: every transition builds a fresh
context record by spreading the update over the previous one). -/
theorem snapshot_is_shallow_merge_of_updates (us : List MediaUpdate) :
    getSnapshot (runUpdates initialMachineState us) =
      shallowMergeAll mediaMachineContext us :=
  (runUpdates_context_eq us initialMachineState rfl).1

/-! ## The buffered-range readiness check (`checkMediaHasDataToPlay`) -/

/-- MediaProvider: the per-range start normalization inside
`checkMediaHasDataToPlay`, the expression
`Math.floor(start) === 0 ? Math.floor(start) : start`. -/
def normalizeStart (s : ℚ) : ℚ :=
  if (⌊s⌋ : ℤ) = 0 then ((⌊s⌋ : ℤ) : ℚ) else s

/-- MediaProvider: `checkMediaHasDataToPlay`, reading `currentTime` and the
buffered ranges off the media element: every range's start is normalized by
`normalizeStart`, and the element has data to play when some normalized
range contains `currentTime` with inclusive bounds
(`currentTime >= start && currentTime <= end`). -/
def checkMediaHasDataToPlay (currentTime : ℚ) (buffered : List (ℚ × ℚ)) : Bool :=
  let timeRanges := buffered.map fun r => (normalizeStart r.1, r.2)
  timeRanges.any fun r => decide (r.1 ≤ currentTime) && decide (currentTime ≤ r.2)

/-- The readiness check as the claim words it: only the start of the
earliest range is normalized, the remaining ranges are used as reported.
(Stated from the spec's words, to be compared with
`checkMediaHasDataToPlay`, which is translated from the source.) -/
def earliestOnlyReadiness (currentTime : ℚ) (buffered : List (ℚ × ℚ)) : Bool :=
  match buffered with
  | [] => false
  | r :: rest =>
      (decide (normalizeStart r.1 ≤ currentTime) && decide (currentTime ≤ r.2))
        || rest.any fun q => decide (q.1 ≤ currentTime) && decide (currentTime ≤ q.2)

/-- C2, counterexample.  The source's check normalizes the start of every
range whose floor is 0, not only the earliest one: with the sorted,
disjoint buffered ranges `[[0.2, 0.3], [0.5, 10]]` and `currentTime = 0.4`,
the claim's earliest-only reading answers `false` (0.4 lies in neither
`[0, 0.3]` nor `[0.5, 10]`), but the code answers `true` (the second range
is also normalized to `[0, 10]`). -/
theorem check_divergence_from_earliest_only_normalization :
    checkMediaHasDataToPlay (2/5) [(1/5, 3/10), (1/2, 10)] = true ∧
      earliestOnlyReadiness (2/5) [(1/5, 3/10), (1/2, 10)] = false := by
  constructor
  · simp [checkMediaHasDataToPlay, normalizeStart]; norm_num
  · simp [earliestOnlyReadiness, normalizeStart]; norm_num

/-- C2, amended.  The readiness check returns true iff the media element's
`currentTime` falls within some buffered range with inclusive bounds, after
normalizing the start of every range (not only the earliest) whose start
has floor 0 to 0; in particular, for buffered ranges
`[[0.0056, 10], [15, 20]]` and `currentTime 0` the check returns true, and
the normalized first-range start is 0. -/
theorem checkMediaHasDataToPlay_spec :
    (∀ (currentTime : ℚ) (buffered : List (ℚ × ℚ)),
      checkMediaHasDataToPlay currentTime buffered = true ↔
        ∃ r ∈ buffered, normalizeStart r.1 ≤ currentTime ∧ currentTime ≤ r.2) ∧
    checkMediaHasDataToPlay 0 [(7/1250, 10), (15, 20)] = true ∧
    normalizeStart (7/1250) = 0 := by
  refine ⟨fun currentTime buffered => ?_, ?_, ?_⟩
  · simp [checkMediaHasDataToPlay, List.any_map, List.any_eq_true, Function.comp]
  · simp [checkMediaHasDataToPlay, normalizeStart]; norm_num
  · have h : (⌊(7:ℚ)/1250⌋ : ℤ) = 0 := by norm_num [Int.floor_eq_iff]
    simp [normalizeStart, h]

/-! ## The selector layer (`useMediaContext`)

`useMediaContext` subscribes to the machine service.  On every notified
state it first drops states whose `changed` flag is not `true`; then, when
the supplied selector is the `identity` reference, it unconditionally calls
`setPartialState(selector(state.context))` — a freshly allocated context
object, so the consumer re-renders; otherwise it calls `setPartialState`
only when the newly selected slice is not `isEqual` (lodash deep equality,
which is equality of the embedded values) to the previously returned slice.
Each step below returns (whether the consumer re-renders, the slice it
holds afterwards). -/

/-- The subscribe callback for a consumer using the default `identity`
selector. -/
def identityConsumerStep (prev : MediaValuesContext) (st : MachineState) :
    Bool × MediaValuesContext :=
  if st.changed = some true then (true, st.context) else (false, prev)

/-- The subscribe callback for a consumer using a non-identity selector
`sel`, currently holding the slice `prev`. -/
def selectorConsumerStep {α : Type} [DecidableEq α]
    (sel : MediaValuesContext → α) (prev : α) (st : MachineState) : Bool × α :=
  if st.changed = some true then
    if sel st.context = prev then (false, prev) else (true, sel st.context)
  else (false, prev)

/-- An update all of whose fields are identical to the initial snapshot's
current values (it re-supplies the default volume 1). -/
def noopUpdate : MediaUpdate := { volume := some 1 }

/-- C3, counterexample.  Sending an update whose fields are all identical
to the current values (volume 1 over the initial snapshot, which already
has volume 1) leaves the snapshot unchanged, yet the listener is invoked
with `changed = true` — the machine flags every `UPDATE` as changed because
`updateMedia` is an assign action — and a subscribed identity-selector
consumer is re-rendered, contradicting "changed=false (or no listener call
at all)" and "never causes a spurious re-render". -/
theorem noop_update_changed_true_counterexample :
    applyUpdate mediaMachineContext noopUpdate = mediaMachineContext ∧
      (mediaTransition initialMachineState noopUpdate).changed = some true ∧
      (identityConsumerStep mediaMachineContext
          (mediaTransition initialMachineState noopUpdate)).1 = true := by
  exact ⟨rfl, rfl, rfl⟩

/-- C3, amended.  An update whose fields are all identical to the current
values yields a listener call with `changed = true` (the store flags every
update as changed), and leaves the snapshot unchanged; a consumer with a
non-identity selector is nevertheless not re-rendered, shielded by the
deep-equality gate, but an identity-selector consumer is re-rendered. -/
theorem noop_update_still_flagged_changed (s : MachineState) (u : MediaUpdate)
    (hready : s.value = "ready") (hnoop : applyUpdate s.context u = s.context) :
    (mediaTransition s u).changed = some true ∧
      getSnapshot (mediaTransition s u) = getSnapshot s ∧
      (∀ {α : Type} [DecidableEq α] (sel : MediaValuesContext → α),
        (selectorConsumerStep sel (sel (getSnapshot s)) (mediaTransition s u)).1 = false) ∧
      (identityConsumerStep (getSnapshot s) (mediaTransition s u)).1 = true := by
  have hstep : mediaTransition s u =
      { value := "ready", context := applyUpdate s.context u, changed := some true } := by
    simp [mediaTransition, hready]
  refine ⟨by rw [hstep], by simp [hstep, getSnapshot, hnoop], ?_, by simp [hstep, identityConsumerStep]⟩
  intro α instα sel
  simp [hstep, selectorConsumerStep, getSnapshot, hnoop]

/-- Witness for C3's amended theorem: the hypotheses hold at the initial
state with the no-op volume update. -/
theorem noop_update_still_flagged_changed_witness :
    (mediaTransition initialMachineState noopUpdate).changed = some true ∧
      getSnapshot (mediaTransition initialMachineState noopUpdate) =
        getSnapshot initialMachineState ∧
      (∀ {α : Type} [DecidableEq α] (sel : MediaValuesContext → α),
        (selectorConsumerStep sel (sel (getSnapshot initialMachineState))
          (mediaTransition initialMachineState noopUpdate)).1 = false) ∧
      (identityConsumerStep (getSnapshot initialMachineState)
        (mediaTransition initialMachineState noopUpdate)).1 = true :=
  noop_update_still_flagged_changed initialMachineState noopUpdate rfl rfl

/-- C9.  On every store change (a notified state with `changed = true`), a
consumer with a non-identity selector is re-rendered iff the newly selected
slice differs (deep equality) from the previously returned slice, while an
identity-selector consumer is re-rendered on every change. -/
theorem selector_rerender_gating {α : Type} [DecidableEq α]
    (sel : MediaValuesContext → α) (prev : α) (prevCtx : MediaValuesContext)
    (st : MachineState) (hchanged : st.changed = some true) :
    ((selectorConsumerStep sel prev st).1 = true ↔ sel st.context ≠ prev) ∧
      (identityConsumerStep prevCtx st).1 = true := by
  constructor
  · by_cases h : sel st.context = prev
    · simp [selectorConsumerStep, hchanged, h]
    · simp [selectorConsumerStep, hchanged, h]
  · simp [identityConsumerStep, hchanged]

/-- Witness for C9: a consumer selecting only `currentTime`, observing the
state produced by an update that changes only `volume`: the iff's right
side is decidably false there (the slice did not change), so the consumer
is not re-rendered, while the identity consumer is. -/
theorem selector_rerender_gating_witness :
    ((selectorConsumerStep (fun c => c.currentTime) mediaMachineContext.currentTime
        (mediaTransition initialMachineState { volume := some (1/2) })).1 = true ↔
      (mediaTransition initialMachineState { volume := some (1/2) }).context.currentTime ≠
        mediaMachineContext.currentTime) ∧
      (identityConsumerStep mediaMachineContext
        (mediaTransition initialMachineState { volume := some (1/2) })).1 = true :=
  selector_rerender_gating (fun c => c.currentTime) mediaMachineContext.currentTime
    mediaMachineContext (mediaTransition initialMachineState { volume := some (1/2) }) rfl

/-! ## The hls error policy -/

/-- hls.js `ErrorTypes`, as the error handler switches on them. -/
inductive HlsErrorType where
  | networkError
  | mediaError
  | keySystemError
  | muxError
  | otherError
deriving DecidableEq, Repr

/-- The control calls the error handler can issue on the hls instance. -/
inductive HlsCall where
  | startLoad
  | recoverMediaError
  | destroy
deriving DecidableEq, Repr

/-- MediaProvider: the `Hls.Events.ERROR` handler.  On a fatal error it
switches on the error type: network errors retry the load and mark
`RECOVERING`; media errors attempt in-place recovery and mark `RECOVERING`;
every other fatal error destroys the instance and marks `ERROR`.  Non-fatal
errors fall through the `if (data.fatal)` guard: no call, no update.
Returns the hls calls issued and the resulting snapshot. -/
def onHlsError (fatal : Bool) (t : HlsErrorType) (c : MediaValuesContext) :
    List HlsCall × MediaValuesContext :=
  if fatal then
    match t with
    | .networkError => ([.startLoad], applyUpdate c { status := some .RECOVERING })
    | .mediaError => ([.recoverMediaError], applyUpdate c { status := some .RECOVERING })
    | _ => ([.destroy], applyUpdate c { status := some .ERROR })
  else ([], c)

/-- C4.  For every streaming-adapter error event: a fatal network error
retries the load and sets status `RECOVERING`; a fatal media error attempts
in-place recovery and sets status `RECOVERING`; every other fatal error
destroys the adapter and sets status `ERROR`; every non-fatal error leaves
the snapshot unchanged and issues no adapter call. -/
theorem hls_error_recovery_policy (c : MediaValuesContext) (t : HlsErrorType) :
    onHlsError true .networkError c =
        ([.startLoad], { c with status := .RECOVERING }) ∧
      onHlsError true .mediaError c =
        ([.recoverMediaError], { c with status := .RECOVERING }) ∧
      (t ≠ .networkError → t ≠ .mediaError →
        onHlsError true t c = ([.destroy], { c with status := .ERROR })) ∧
      onHlsError false t c = ([], c) := by
  refine ⟨rfl, rfl, ?_, rfl⟩
  intro h1 h2
  cases t
  · exact absurd rfl h1
  · exact absurd rfl h2
  · rfl
  · rfl
  · rfl

/-! ## Duration normalization (`_onDurationChange`) -/

/-- A value of the element's `duration` property: a finite number of
seconds or `Infinity`. -/
inductive JsDuration where
  | fin (q : ℚ)
  | inf
deriving DecidableEq, Repr

/-- JS `Math.round`: round half up on finite numbers
(`Math.round(x) = Math.floor(x + 0.5)`), and `Math.round(Infinity)` is
`Infinity`. -/
def jsMathRound : JsDuration → JsDuration
  | .fin q => .fin ((⌊q + 1/2⌋ : ℤ) : ℚ)
  | .inf => .inf

/-- MediaProvider: `_onDurationChange` — round the element's duration, and
send the update only when the rounded duration is not `Infinity`. -/
def onDurationChange (d : JsDuration) (c : MediaValuesContext) : MediaValuesContext :=
  match jsMathRound d with
  | .inf => c
  | .fin n => applyUpdate c { duration := some n }

/-- C7.  On a duration-change event reporting an infinite duration the
snapshot is left entirely unchanged; on a finite reported duration only the
`duration` field changes, and it becomes the reported duration rounded to
the nearest integer second (JS `Math.round`, half up). -/
theorem durationChange_effect (c : MediaValuesContext) (d : JsDuration) :
    (d = .inf → onDurationChange d c = c) ∧
      (∀ q, d = .fin q →
        onDurationChange d c = { c with duration := ((⌊q + 1/2⌋ : ℤ) : ℚ) }) := by
  constructor
  · rintro rfl; rfl
  · intro q h; subst h; rfl

/-! ## The numeric setters (`setVolume`, `setRotate`) -/

/-- lodash `clamp(number, lower, upper)`: cap at the upper bound first,
then raise to the lower bound. -/
def lodashClamp (number lower upper : ℚ) : ℚ :=
  let n1 := if number ≤ upper then number else upper
  if lower ≤ n1 then n1 else lower

/-- Truncation toward zero, as JS division-based remainder uses it. -/
def ratTrunc (q : ℚ) : ℤ :=
  if 0 ≤ q then ⌊q⌋ else ⌈q⌉

/-- The JS `%` operator on numbers: the remainder of dividing `x` by `n`
carrying the sign of the dividend, `x - n * trunc(x / n)`. -/
def jsRem (x n : ℚ) : ℚ :=
  x - n * (ratTrunc (x / n) : ℚ)

/-- MediaProvider: `setVolume` — the value assigned to the element's
`volume` property, `clamp(volume, 0, 1)`; the element's `volumechange`
event then echoes exactly this value into the snapshot. -/
def setVolume (volume : ℚ) : ℚ :=
  lodashClamp volume 0 1

/-- MediaProvider: `setRotate` — directly merges `rotate % 360` (JS
remainder) into the snapshot. -/
def setRotate (rotate : ℚ) (c : MediaValuesContext) : MediaValuesContext :=
  applyUpdate c { rotate := some (jsRem rotate 360) }

/-- C8, counterexample.  `setRotate (-10)` stores `-10`, which does not lie
in `[0, 360)`: the JS `%` operator keeps the dividend's sign, so negative
inputs are not normalized into the documented domain. -/
theorem setRotate_negative_not_normalized :
    (setRotate (-10) mediaMachineContext).rotate = -10 ∧
      ¬ (0 ≤ (setRotate (-10) mediaMachineContext).rotate ∧
          (setRotate (-10) mediaMachineContext).rotate < 360) := by
  have htr : ratTrunc ((-10 : ℚ) / 360) = 0 := by
    have hlt : ¬ (0 ≤ ((-10 : ℚ) / 360)) := by norm_num
    simp [ratTrunc, hlt]
    norm_num [Int.ceil_eq_iff]
  have hv : (setRotate (-10) mediaMachineContext).rotate = -10 := by
    simp [setRotate, applyUpdate, jsRem, htr]
  refine ⟨hv, ?_⟩
  rw [hv]
  norm_num

/-- C8, amended.  `setVolume` clamps its argument into `[0, 1]` for every
input (`setVolume 1.5 = 1`, `setVolume (-1) = 0`), and `setRotate` stores
`rotate % 360` with JS remainder semantics: for every nonnegative input the
stored value lies in `[0, 360)` (`setRotate 370` stores `10`), but negative
inputs keep their sign and are stored unnormalized. -/
theorem setters_clamped_amended :
    (∀ v : ℚ, 0 ≤ setVolume v ∧ setVolume v ≤ 1) ∧
      setVolume (3/2) = 1 ∧
      setVolume (-1) = 0 ∧
      (∀ (c : MediaValuesContext) (r : ℚ), 0 ≤ r →
        0 ≤ (setRotate r c).rotate ∧ (setRotate r c).rotate < 360) ∧
      (∀ c : MediaValuesContext, (setRotate 370 c).rotate = 10) := by
  refine ⟨?_, ?_, ?_, ?_, ?_⟩
  · intro v
    simp only [setVolume, lodashClamp]
    split_ifs with h1 h2 h3 <;> constructor <;> linarith
  · simp only [setVolume, lodashClamp]; norm_num
  · simp only [setVolume, lodashClamp]; norm_num
  · intro c r hr
    have hq : (0 : ℚ) ≤ r / 360 := by positivity
    have hrot : (setRotate r c).rotate = r - 360 * (⌊r / 360⌋ : ℚ) := by
      simp [setRotate, applyUpdate, jsRem, ratTrunc, hq]
    have key : (360 : ℚ) * (r / 360) = r := by field_simp
    have h1 : ((⌊r / 360⌋ : ℚ)) ≤ r / 360 := Int.floor_le _
    have h2 : r / 360 < (⌊r / 360⌋ : ℚ) + 1 := Int.lt_floor_add_one _
    have hA : (360 : ℚ) * (⌊r / 360⌋ : ℚ) ≤ r := by
      have := mul_le_mul_of_nonneg_left h1 (show (0:ℚ) ≤ 360 by norm_num)
      rw [key] at this
      exact this
    have hB : r < (360 : ℚ) * ((⌊r / 360⌋ : ℚ) + 1) := by
      have := mul_lt_mul_of_pos_left h2 (show (0:ℚ) < 360 by norm_num)
      rw [key] at this
      exact this
    rw [hrot]
    constructor <;> linarith
  · intro c
    have hq : (0 : ℚ) ≤ 370 / 360 := by norm_num
    have hfl : (⌊(370 : ℚ) / 360⌋ : ℤ) = 1 := by norm_num [Int.floor_eq_iff]
    simp [setRotate, applyUpdate, jsRem, ratTrunc, hq, hfl]
    norm_num

/-! ## Bitrate selection (`setCurrentBirateIndex`) -/

/-- The slice of the hls.js instance the bitrate setter touches. -/
structure HlsInstance where
  currentLevel : Int
deriving DecidableEq, Repr

/-- MediaProvider: `setCurrentBirateIndex`.  It first sends the snapshot
update (`autoBitrateEnabled` becomes whether the index is the auto sentinel
`-1`, `currentBirateIndex` becomes the index) and only then calls
`_getHls()`, which throws `"HLS instance is not available"` when no
adapter is bound; with an adapter bound it assigns `currentLevel` only when
it differs.  Returns the snapshot together with the call's outcome. -/
def setCurrentBirateIndex (hls : Option HlsInstance) (bitrateIndex : Int)
    (c : MediaValuesContext) : MediaValuesContext × Except String HlsInstance :=
  let c1 := applyUpdate c
    { autoBitrateEnabled := some (decide (bitrateIndex = DEFAULT_AUTO_BITRATE_INDEX)),
      currentBirateIndex := some bitrateIndex }
  match hls with
  | none => (c1, Except.error "HLS instance is not available")
  | some h =>
      if h.currentLevel ≠ bitrateIndex then (c1, Except.ok { currentLevel := bitrateIndex })
      else (c1, Except.ok h)

/-- C10.  Calling `setCurrentBirateIndex` with no streaming adapter bound
throws, but only after the snapshot has already been updated: the stored
`currentBirateIndex` is the requested index and `autoBitrateEnabled` is
whether the index equals the auto sentinel `-1`, every other field being
unchanged — the state changes even though the call raises an error. -/
theorem setCurrentBirateIndex_updates_before_throw (c : MediaValuesContext) (idx : Int) :
    (setCurrentBirateIndex none idx c).2 =
        Except.error "HLS instance is not available" ∧
      (setCurrentBirateIndex none idx c).1 =
        { c with currentBirateIndex := idx,
                 autoBitrateEnabled := decide (idx = -1) } :=
  ⟨rfl, rfl⟩

/-! ## Debounced LOADING / immediate CAN_PLAY (`setLoadingStatus`,
`setCanPlayStatus`, `_onSeeking`, `_onProgress`, `_onWaiting`)

The binder keeps one cancellable timeout (`_timeoutLoadingId`).  We embed
it as the absolute time at which the scheduled LOADING update would fire:
`fireTimer now` performs the timeout callback when its deadline has been
reached and it was not cancelled.  Events carry the media element's facts
(`currentTime`, buffered ranges, `ended`) at the moment they fire. -/

/-- The debounce delay of `setLoadingStatus`, in milliseconds. -/
def DEBOUNCE_MS : ℚ := 1000

/-- What the binder reads off the media element while handling an event. -/
structure MediaFacts where
  currentTime : ℚ
  buffered : List (ℚ × ℚ)
  ended : Bool
deriving DecidableEq, Repr

/-- The native events wired into the status logic. -/
inductive BinderEvent where
  | seeking (m : MediaFacts)
  | seeked
  | progress (m : MediaFacts)
  | waiting (m : MediaFacts)
  | canPlay
deriving DecidableEq, Repr

/-- The binder's status-relevant state: the snapshot and the pending
LOADING deadline, if a `setLoadingStatus` timeout is outstanding. -/
structure BinderState where
  ctx : MediaValuesContext
  pendingDeadline : Option ℚ
deriving DecidableEq, Repr

/-- The timeout callback: if a LOADING update is scheduled and its deadline
has passed, it sets status LOADING and the timeout is spent. -/
def fireTimer (now : ℚ) (s : BinderState) : BinderState :=
  match s.pendingDeadline with
  | some d =>
      if d ≤ now then
        { ctx := applyUpdate s.ctx { status := some .LOADING }, pendingDeadline := none }
      else s
  | none => s

/-- `setLoadingStatus`: clear any pending timeout and schedule the LOADING
update `DEBOUNCE_MS` from now. -/
def setLoadingStatus (now : ℚ) (s : BinderState) : BinderState :=
  { s with pendingDeadline := some (now + DEBOUNCE_MS) }

/-- `setCanPlayStatus`: clear any pending timeout and set status CAN_PLAY
immediately. -/
def setCanPlayStatus (s : BinderState) : BinderState :=
  { ctx := applyUpdate s.ctx { status := some .CAN_PLAY }, pendingDeadline := none }

/-- The event handlers `_onSeeking`, `_onSeeked`, `_onProgress`,
`_onWaiting` and `_onCanPlay`, as the source wires them. -/
def handleBinderEvent (now : ℚ) (e : BinderEvent) (s : BinderState) : BinderState :=
  match e with
  | .seeking m =>
      let s1 := { s with ctx := (applyUpdate s.ctx
        { seeking := some true, currentTime := some m.currentTime, ended := some m.ended }) }
      if checkMediaHasDataToPlay m.currentTime m.buffered then s1
      else setLoadingStatus now s1
  | .seeked => { s with ctx := applyUpdate s.ctx { seeking := some false } }
  | .progress m =>
      let s1 :=
        if checkMediaHasDataToPlay m.currentTime m.buffered then setCanPlayStatus s else s
      { s1 with ctx := applyUpdate s1.ctx { buffered := some (some m.buffered) } }
  | .waiting m =>
      if checkMediaHasDataToPlay m.currentTime m.buffered then setCanPlayStatus s
      else setLoadingStatus now s
  | .canPlay => setCanPlayStatus s

/-- One event-loop turn at time `t`: a due timeout callback runs before the
event handler. -/
def binderStep (s : BinderState) (t : ℚ) (e : BinderEvent) : BinderState :=
  handleBinderEvent t e (fireTimer t s)

theorem fireTimer_none {s : BinderState} (h : s.pendingDeadline = none) (u : ℚ) :
    fireTimer u s = s := by
  simp [fireTimer, h]

theorem fireTimer_not_due {s : BinderState} {d : ℚ} (h : s.pendingDeadline = some d)
    {u : ℚ} (hu : ¬ d ≤ u) : fireTimer u s = s := by
  simp [fireTimer, h, hu]

theorem fireTimer_due {s : BinderState} {d : ℚ} (h : s.pendingDeadline = some d)
    {u : ℚ} (hu : d ≤ u) :
    fireTimer u s =
      { ctx := applyUpdate s.ctx { status := some .LOADING }, pendingDeadline := none } := by
  simp [fireTimer, h, hu]

/-- C5.  After a seek (or waiting signal) at time `t` at a position outside
all buffered ranges, from a quiet CAN_PLAY state: a LOADING update is
pending with deadline `t + 1000`, the status is still CAN_PLAY, the status
becomes LOADING exactly when the debounce window has elapsed
(`t + 1000 ≤ u`) with no intervening qualifying event, and if a progress or
waiting event whose position is playable arrives at any time `u` before the
window elapses, the pending transition is cancelled, status is immediately
CAN_PLAY, and LOADING can never occur from that seek (the timeout is gone
for good). -/
theorem seek_outside_buffered_debounced_loading
    (s0 : BinderState) (t : ℚ) (m : MediaFacts) (e0 : BinderEvent)
    (hstatus : s0.ctx.status = .CAN_PLAY)
    (hpend : s0.pendingDeadline = none)
    (hinit : e0 = .seeking m ∨ e0 = .waiting m)
    (hnp : checkMediaHasDataToPlay m.currentTime m.buffered = false) :
    (binderStep s0 t e0).pendingDeadline = some (t + DEBOUNCE_MS) ∧
      (binderStep s0 t e0).ctx.status = .CAN_PLAY ∧
      (∀ u : ℚ,
        (fireTimer u (binderStep s0 t e0)).ctx.status = .LOADING ↔ t + DEBOUNCE_MS ≤ u) ∧
      (∀ (u : ℚ) (m2 : MediaFacts) (e2 : BinderEvent),
        u < t + DEBOUNCE_MS →
        (e2 = .progress m2 ∨ e2 = .waiting m2) →
        checkMediaHasDataToPlay m2.currentTime m2.buffered = true →
        (binderStep (binderStep s0 t e0) u e2).ctx.status = .CAN_PLAY ∧
          (binderStep (binderStep s0 t e0) u e2).pendingDeadline = none ∧
          ∀ w : ℚ,
            fireTimer w (binderStep (binderStep s0 t e0) u e2) =
              binderStep (binderStep s0 t e0) u e2) := by
  have hfire0 : fireTimer t s0 = s0 := fireTimer_none hpend t
  have hchar : (binderStep s0 t e0).pendingDeadline = some (t + DEBOUNCE_MS) ∧
      (binderStep s0 t e0).ctx.status = .CAN_PLAY := by
    rcases hinit with h | h <;>
      · subst h
        simp [binderStep, handleBinderEvent, hfire0, hnp, setLoadingStatus,
          applyUpdate, hstatus]
  refine ⟨hchar.1, hchar.2, ?_, ?_⟩
  · intro u
    by_cases hu : t + DEBOUNCE_MS ≤ u
    · rw [fireTimer_due hchar.1 hu]
      simp [applyUpdate, hu]
    · rw [fireTimer_not_due hchar.1 hu]
      simp [hchar.2, hu]
  · intro u m2 e2 hu he2 hq
    have hfire1 : fireTimer u (binderStep s0 t e0) = binderStep s0 t e0 :=
      fireTimer_not_due hchar.1 (not_le.mpr hu)
    have hchar2 : (binderStep (binderStep s0 t e0) u e2).ctx.status = .CAN_PLAY ∧
        (binderStep (binderStep s0 t e0) u e2).pendingDeadline = none := by
      rcases he2 with h | h <;>
        · subst h
          simp [binderStep, handleBinderEvent, hfire1, hq, setCanPlayStatus, applyUpdate]
    exact ⟨hchar2.1, hchar2.2, fun w => fireTimer_none hchar2.2 w⟩

/-- The concrete state for C5's witness: the quiet CAN_PLAY state with no
pending timeout. -/
def quietCanPlayState : BinderState :=
  { ctx := { mediaMachineContext with status := .CAN_PLAY }, pendingDeadline := none }

/-- Witness for C5: a seek at time 0 to position 5 with nothing buffered,
from the quiet CAN_PLAY state. -/
theorem seek_outside_buffered_debounced_loading_witness :
    (binderStep quietCanPlayState 0 (.seeking ⟨5, [], false⟩)).pendingDeadline =
        some (0 + DEBOUNCE_MS) ∧
      (binderStep quietCanPlayState 0 (.seeking ⟨5, [], false⟩)).ctx.status = .CAN_PLAY ∧
      (∀ u : ℚ,
        (fireTimer u (binderStep quietCanPlayState 0
          (.seeking ⟨5, [], false⟩))).ctx.status = .LOADING ↔ 0 + DEBOUNCE_MS ≤ u) ∧
      (∀ (u : ℚ) (m2 : MediaFacts) (e2 : BinderEvent),
        u < 0 + DEBOUNCE_MS →
        (e2 = .progress m2 ∨ e2 = .waiting m2) →
        checkMediaHasDataToPlay m2.currentTime m2.buffered = true →
        (binderStep (binderStep quietCanPlayState 0
            (.seeking ⟨5, [], false⟩)) u e2).ctx.status = .CAN_PLAY ∧
          (binderStep (binderStep quietCanPlayState 0
            (.seeking ⟨5, [], false⟩)) u e2).pendingDeadline = none ∧
          ∀ w : ℚ,
            fireTimer w (binderStep (binderStep quietCanPlayState 0
                (.seeking ⟨5, [], false⟩)) u e2) =
              binderStep (binderStep quietCanPlayState 0 (.seeking ⟨5, [], false⟩)) u e2) :=
  seek_outside_buffered_debounced_loading quietCanPlayState
    0 ⟨5, [], false⟩ (.seeking ⟨5, [], false⟩) rfl rfl (Or.inl rfl) rfl

/-! ## Play/pause reconciliation (`setPaused`)

`setPaused` stores the latest requested paused-state in `_pausedRef` and
merges it into the snapshot.  Pausing while a play promise is outstanding
awaits that promise; the continuation then clears `_playPromise` and
issues the native `pause()` only if the latest requested paused-state is
still true.  With no outstanding promise, `pause()` is issued at once.
Playing issues the native `play()` and stores its promise.  We embed the
promise in `_playPromise` by a numeric id, a pause continuation by the id
of the promise it awaits, and the event loop by an action trace; native
calls are recorded in issue order. -/

/-- A native transport call on the media element. -/
inductive NativeOp where
  | play
  | pause
deriving DecidableEq, Repr

/-- The binder's play/pause state: the `_pausedRef` ref, the snapshot, the
id of the promise held in `_playPromise` (if any), a fresh-id counter, the
pause continuations awaiting a promise (by its id, in registration order),
and the native calls issued so far. -/
structure PlayerState where
  pausedRef : Bool
  ctx : MediaValuesContext
  playPromise : Option Nat
  nextPromiseId : Nat
  pendingPauses : List Nat
  nativeOps : List NativeOp
deriving DecidableEq, Repr

/-- MediaProvider: `setPaused`.  The synchronous part of a call runs to the
first `await` (if any): the ref and snapshot are updated; a pause with an
outstanding play promise registers a continuation on it; a pause with no
outstanding promise issues the native `pause()` at once; a play issues the
native `play()` and stores the fresh promise. -/
def setPaused (paused : Bool) (s : PlayerState) : PlayerState :=
  let s1 := { s with pausedRef := paused, ctx := applyUpdate s.ctx { paused := some paused } }
  if paused then
    match s1.playPromise with
    | some id => { s1 with pendingPauses := s1.pendingPauses ++ [id] }
    | none => { s1 with nativeOps := s1.nativeOps ++ [.pause] }
  else
    { s1 with nativeOps := s1.nativeOps ++ [.play],
              playPromise := some s1.nextPromiseId,
              nextPromiseId := s1.nextPromiseId + 1 }

/-- The play promise with id `id` resolves: every pause continuation that
awaited it runs, in registration order.  A continuation clears
`_playPromise` and re-checks the latest requested paused-state before
issuing the native `pause()`. -/
def resolvePlayPromise (id : Nat) (s : PlayerState) : PlayerState :=
  let conts := s.pendingPauses.filter fun w => w == id
  let s1 := { s with pendingPauses := s.pendingPauses.filter fun w => w != id }
  conts.foldl
    (fun st _ =>
      let st1 := { st with playPromise := none }
      if st1.pausedRef then { st1 with nativeOps := st1.nativeOps ++ [.pause] } else st1)
    s1

/-- An event-loop occurrence touching the play/pause logic. -/
inductive PlayerAct where
  | userSetPaused (b : Bool)
  | promiseResolves (id : Nat)
deriving DecidableEq, Repr

def playerStep (s : PlayerState) (a : PlayerAct) : PlayerState :=
  match a with
  | .userSetPaused b => setPaused b s
  | .promiseResolves id => resolvePlayPromise id s

def runPlayer (s : PlayerState) (acts : List PlayerAct) : PlayerState :=
  acts.foldl playerStep s

/-- The binder's state at session start: paused, no promise, no calls. -/
def initialPlayerState : PlayerState where
  pausedRef := true
  ctx := mediaMachineContext
  playPromise := none
  nextPromiseId := 0
  pendingPauses := []
  nativeOps := []

/-- C6.  Pause requests are serialized behind any in-flight play request:
(i) with no outstanding play promise, a pause issues the native `pause()`
immediately; (ii) with an outstanding promise, a pause issues no native
call now and registers a continuation on that promise; (iii) when the
promise resolves, a registered continuation issues the native `pause()`
iff the latest requested paused-state is still true; in particular (iv)
play, pause, resolve issues `play` then `pause`, while (v) play, pause,
play, resolve never issues a native `pause` at all — the pause request was
superseded by the later play request. -/
theorem setPaused_serialized_behind_play :
    (∀ s : PlayerState, s.playPromise = none →
      (setPaused true s).nativeOps = s.nativeOps ++ [.pause]) ∧
      (∀ (s : PlayerState) (id : Nat), s.playPromise = some id →
        (setPaused true s).nativeOps = s.nativeOps ∧
          (setPaused true s).pendingPauses = s.pendingPauses ++ [id] ∧
          (setPaused true s).pausedRef = true) ∧
      (∀ (s : PlayerState) (id : Nat), s.pendingPauses = [id] →
        (resolvePlayPromise id s).nativeOps =
          s.nativeOps ++ (if s.pausedRef then [.pause] else [])) ∧
      (runPlayer initialPlayerState
        [.userSetPaused false, .userSetPaused true, .promiseResolves 0]).nativeOps =
          [.play, .pause] ∧
      (runPlayer initialPlayerState
        [.userSetPaused false, .userSetPaused true, .userSetPaused false,
          .promiseResolves 0]).nativeOps = [.play, .play] := by
  refine ⟨?_, ?_, ?_, ?_, ?_⟩
  · intro s h
    simp [setPaused, h]
  · intro s id h
    simp [setPaused, h]
  · intro s id h
    cases hb : s.pausedRef <;>
      simp [resolvePlayPromise, h, hb]
  · rfl
  · rfl

end MediaPlayable
